import Mathlib

/-
Verification development for the pdf_transitions viewer.

The embedding follows the two source files:
  * `src/unnamed/part_000` : `PDFHandler` (PDF.js wrapper) and `WebGLUtils`
    (shader selection, `performTransition` and its `animate` loop).
  * `src/js/app.js` : `PDFTransitionsApp` (navigation, page cache,
    `prerenderAdjacentPages`, `cleanupCache`, `renderPageWithTransition`).

Bitmap surfaces are modelled by `Option ℤ`: `some p` stands for a canvas
holding the rasterized pixels of page `p`, `none` for a blank canvas (a
freshly created `document.createElement('canvas')`, or one whose render
failed).  The JS `Map` used for the page cache is modelled as an
association list with unique keys, in insertion order, exactly as a JS
`Map` iterates.  External effects that can fail (PDF.js rasterization,
WebGL program compilation) and the frame scheduler are supplied by an
oracle so that every error path of the source is reachable in the model.
-/

namespace PdfTransitions

/-- A rasterized bitmap surface: `some p` holds the pixels of page `p`,
`none` is blank. -/
abbrev Surface := Option ℤ

/- ------------------------------------------------------------------
   WebGLUtils (src/unnamed/part_000, lines 174-480)
   ------------------------------------------------------------------ -/

namespace WebGLUtils

/-- IEEE-style number as JavaScript produces it from `elapsed / duration`
and `Math.min`: either NaN, an infinity, or a finite value (modelled
exactly by a rational, since all inputs here are finite decimals). -/
inductive JSNum where
  | nan
  | inf
  | ninf
  | fin (q : ℚ)
deriving DecidableEq, Repr

/-- JavaScript division `a / b` for finite operands: division by zero
yields NaN (0/0) or a signed infinity, never a thrown error. -/
def jsDiv (a b : ℚ) : JSNum :=
  if b = 0 then
    if a = 0 then JSNum.nan
    else if 0 < a then JSNum.inf
    else JSNum.ninf
  else JSNum.fin (a / b)

/-- JavaScript `Math.min`: returns NaN if either argument is NaN. -/
def jsMin (x y : JSNum) : JSNum :=
  match x, y with
  | JSNum.nan, _ => JSNum.nan
  | _, JSNum.nan => JSNum.nan
  | JSNum.ninf, _ => JSNum.ninf
  | _, JSNum.ninf => JSNum.ninf
  | JSNum.inf, y => y
  | x, JSNum.inf => x
  | JSNum.fin a, JSNum.fin b => JSNum.fin (min a b)

/-- JavaScript `<` comparison: any comparison with NaN is false. -/
def jsLt (x y : JSNum) : Bool :=
  match x, y with
  | JSNum.nan, _ => false
  | _, JSNum.nan => false
  | JSNum.ninf, JSNum.ninf => false
  | JSNum.ninf, _ => true
  | _, JSNum.ninf => false
  | JSNum.inf, _ => false
  | JSNum.fin _, JSNum.inf => true
  | JSNum.fin a, JSNum.fin b => decide (a < b)

/-- The per-frame progress computation of the `animate` closure:
`const progress = Math.min(elapsed / duration, 1.0)` (line 448). -/
def progressAt (duration elapsed : ℚ) : JSNum :=
  jsMin (jsDiv elapsed duration) (JSNum.fin 1)

/-- Outcome of running the `animate` loop against a finite sample of the
host's frame schedule: either the promise resolved after drawing some
frames (recording the progress of the last frame drawn), or the sampled
schedule was exhausted with yet another frame requested. -/
inductive AnimOutcome where
  | resolved (framesDrawn : ℕ) (lastProgress : JSNum)
  | pending (framesDrawn : ℕ)
deriving DecidableEq, Repr

/-- The `animate` loop of `performTransition` (lines 446-465): at each
frame compute the progress, set the uniform and draw, then schedule
another frame while `progress < 1.0`, otherwise clean up and resolve.
`es` are the elapsed times (ms since `startTime`) at which the host
delivers animation frames; `n` counts frames already drawn. -/
def animateLoop (duration : ℚ) : List ℚ → ℕ → AnimOutcome
  | [], n => AnimOutcome.pending n
  | e :: rest, n =>
    let p := progressAt duration e
    if jsLt p (JSNum.fin 1) then animateLoop duration rest (n + 1)
    else AnimOutcome.resolved (n + 1) p

/-- Shader sources returned by the three `get*FragmentShader` methods
(lines 279-351), abstracted to which program they denote. -/
inductive FragSource where
  | fadeSrc
  | slideSrc
  | zoomSrc
deriving DecidableEq, Repr

/-- Source of `getFadeFragmentShader` (line 279): its `main` computes
`gl_FragColor = mix(color1, color2, u_progress)`. -/
def getFadeFragmentShader : FragSource := FragSource.fadeSrc

/-- Source of `getSlideFragmentShader` (line 297). -/
def getSlideFragmentShader : FragSource := FragSource.slideSrc

/-- Source of `getZoomFragmentShader` (line 330). -/
def getZoomFragmentShader : FragSource := FragSource.zoomSrc

/-- The `switch (transitionType)` of `getFragmentShaderForTransition`
(lines 390-401): fade, slide, zoom, and a default falling back to the
fade shader. -/
def getFragmentShaderForTransition (transitionType : String) : FragSource :=
  if transitionType = "fade" then getFadeFragmentShader
  else if transitionType = "slide" then getSlideFragmentShader
  else if transitionType = "zoom" then getZoomFragmentShader
  else getFadeFragmentShader

/-- GLSL `mix(x, y, a) = x * (1 - a) + y * a`, per color channel. -/
def glslMix (x y a : ℚ) : ℚ := x * (1 - a) + y * a

/-- Denotation of one channel of the fade fragment shader's
`gl_FragColor = mix(color1, color2, u_progress)` where `c1, c2` are the
sampled channel values of the two textures at the fragment's
coordinate. -/
def fadeFragmentOutput (c1 c2 progress : ℚ) : ℚ := glslMix c1 c2 progress

/-- Result of `performTransition`'s promise against a finite frame-
schedule sample.  The promise executor only ever calls `resolve` (the
source constructs `new Promise((resolve) => ...)` with no `reject` and
no `throw`), so the outcome type has no rejection case at all:
`resolvedNow` is false only when the sampled schedule ran out while the
loop was still requesting frames. -/
structure TransOutcome where
  resolvedNow : Bool
  framesDrawn : ℕ
  lastProgress : Option JSNum
deriving DecidableEq, Repr

/-- `performTransition(fromImage, toImage, transitionType, duration,
direction)` (lines 403-469).  `programOk` is the oracle for
`createProgram` succeeding on the WebGL device; `schedule` is the
host's frame schedule (elapsed ms of each delivered animation frame,
the first synchronous `animate()` call included).  On program-creation
failure the source logs and resolves immediately, before any geometry
setup, texture upload or draw. -/
def performTransition (fromImage toImage : Surface) (transitionType : String)
    (duration : ℚ) (direction : ℚ) (programOk : Bool) (schedule : List ℚ) :
    TransOutcome :=
  if !programOk then
    { resolvedNow := true, framesDrawn := 0, lastProgress := none }
  else
    match animateLoop duration schedule 0 with
    | AnimOutcome.resolved n p =>
      { resolvedNow := true, framesDrawn := n, lastProgress := some p }
    | AnimOutcome.pending n =>
      { resolvedNow := false, framesDrawn := n, lastProgress := none }

end WebGLUtils

/- ------------------------------------------------------------------
   PDFHandler (src/unnamed/part_000, lines 1-173)
   ------------------------------------------------------------------ -/

namespace PDFHandler

/-- `PDFHandler.renderPage(pageNumber, canvas)` (lines 53-111).
`rasterOk p` is the oracle for PDF.js successfully rasterizing page
`p`.  The source wraps the whole body in try/catch and returns `null`
(here `none`) both when no document is loaded and when rendering
throws; it never rejects.  First component: the returned result
(`{success: true, ...}` or `null`); second: the canvas content after
the call (the page's pixels on success, blank on failure, since the
failing path has at most resized -— and thereby cleared -— the canvas). -/
def renderPage (rasterOk : ℤ → Bool) (loaded : Bool) (pageNumber : ℤ) :
    Option ℤ × Surface :=
  if !loaded then (none, none)
  else if rasterOk pageNumber then (some pageNumber, some pageNumber)
  else (none, none)

end PDFHandler

/- ------------------------------------------------------------------
   PDFTransitionsApp (src/js/app.js)
   ------------------------------------------------------------------ -/

/-- The JS `Map.has` on the page cache (association list with unique
keys in insertion order). -/
def mapHas (m : List (ℤ × Surface)) (k : ℤ) : Bool :=
  m.any (fun e => decide (e.1 = k))

/-- The JS `Map.get` (returning the blank surface for the `undefined`
of a missing key; the source only calls it under a `has` check). -/
def mapGet (m : List (ℤ × Surface)) (k : ℤ) : Surface :=
  match m.find? (fun e => decide (e.1 = k)) with
  | some e => e.2
  | none => none

/-- The JS `Map.set`: overwrite in place if the key exists, else append. -/
def mapSet (m : List (ℤ × Surface)) (k : ℤ) (v : Surface) :
    List (ℤ × Surface) :=
  if mapHas m k then
    m.map (fun e => if e.1 = k then (k, v) else e)
  else m ++ [(k, v)]

/-- The keys of the cache, in iteration order. -/
def mapKeys (m : List (ℤ × Surface)) : List ℤ := m.map (fun e => e.1)

/-- The `pagesToKeep` set built by `cleanupCache` (lines 265-269). -/
def pagesToKeep (currentPage : ℤ) : List ℤ :=
  [currentPage - 1, currentPage, currentPage + 1]

/-- `cleanupCache` (lines 263-277): delete every cache entry whose key
is not the current page or one of its two neighbours. -/
def cleanupCache (currentPage : ℤ) (m : List (ℤ × Surface)) :
    List (ℤ × Surface) :=
  m.filter (fun e => decide (e.1 ∈ pagesToKeep currentPage))

/-- Exception points inside the `try` block of
`renderPageWithTransition` where the host can throw (2D-context
snapshot, WebGL canvas resize, final commit `drawImage`).  PDF.js
rasterization is NOT among them: `PDFHandler.renderPage` catches
internally and returns `null`. -/
inductive Step where
  | capture
  | resize
  | commit
deriving DecidableEq, Repr

/-- Oracle for the external collaborators: whether PDF.js rasterizes a
given page, whether the WebGL program compiles, which host call (if
any) throws inside the orchestrator's `try`, and the host's frame
schedule for the transition animation. -/
structure Oracle where
  rasterOk : ℤ → Bool
  programOk : Bool
  throwAt : Option Step
  schedule : List ℚ

/-- The mutable fields of `PDFTransitionsApp` that the claims are
about, plus instrumentation: `displayed` is the content of the visible
`pdfCanvas`; `pendingOld`/`pendingNew` hold the snapshot and the
resolved destination surface of an in-flight transition;
`pendingError` records a pending exception travelling to the `catch`;
`rasterLog` lists every page index passed to `PDFHandler.renderPage`,
in order; `transitionsStarted` counts entries into the guarded
transition body; `transitionFrames` accumulates frames drawn by
`performTransition`. -/
structure AppState where
  currentPage : ℤ
  totalPages : ℤ
  loaded : Bool
  webglOk : Bool
  isTransitioning : Bool
  isPrerendering : Bool
  currentTransition : String
  pageCache : List (ℤ × Surface)
  displayed : Surface
  pendingOld : Surface
  pendingNew : Surface
  pendingError : Bool
  rasterLog : List ℤ
  transitionsStarted : ℕ
  transitionFrames : ℕ
deriving DecidableEq, Repr

/-- First half of the `try` body of `prerenderAdjacentPages`
(lines 232-241): if the next page exists and is not cached, rasterize
it onto a fresh canvas and insert that canvas — the source inserts it
whether or not the render succeeded, since it never checks the
result. -/
def prerenderNextPhase (o : Oracle) (s : AppState) : AppState :=
  if s.currentPage < s.totalPages then
    let nextPage := s.currentPage + 1
    if !mapHas s.pageCache nextPage then
      let r := PDFHandler.renderPage o.rasterOk s.loaded nextPage
      { s with pageCache := mapSet s.pageCache nextPage r.2,
               rasterLog := s.rasterLog ++ [nextPage] }
    else s
  else s

/-- Second half of the `try` body of `prerenderAdjacentPages`
(lines 243-252): same for the previous page. -/
def prerenderPrevPhase (o : Oracle) (s : AppState) : AppState :=
  if 1 < s.currentPage then
    let prevPage := s.currentPage - 1
    if !mapHas s.pageCache prevPage then
      let r := PDFHandler.renderPage o.rasterOk s.loaded prevPage
      { s with pageCache := mapSet s.pageCache prevPage r.2,
               rasterLog := s.rasterLog ++ [prevPage] }
    else s
  else s

/-- `prerenderAdjacentPages` (lines 224-261): reentrancy guard on
`isPrerendering`, then pre-render next and previous pages, run the
cache cleanup, and reset the guard in `finally`.  Nothing inside the
`try` can throw in the model (`renderPage` never rejects, `Map.set`
never throws), so the `catch` is unreachable and the cleanup always
runs. -/
def prerenderAdjacentPages (o : Oracle) (s : AppState) : AppState :=
  if s.isPrerendering || !s.loaded then s
  else
    let s1 := { s with isPrerendering := true }
    let s2 := prerenderPrevPhase o (prerenderNextPhase o s1)
    let s3 := { s2 with pageCache := cleanupCache s2.currentPage s2.pageCache }
    { s3 with isPrerendering := false }

/-- `PDFTransitionsApp.renderPage` (lines 161-189): plain, untransitioned
display of the current page; on success it stores the canvas and
triggers the adjacent-page prefetch. -/
def renderPage (o : Oracle) (s : AppState) : AppState :=
  if !s.loaded then s
  else
    let r := PDFHandler.renderPage o.rasterOk s.loaded s.currentPage
    let s1 := { s with displayed := r.2,
                       rasterLog := s.rasterLog ++ [s.currentPage] }
    match r.1 with
    | some _ => prerenderAdjacentPages o s1
    | none => s1

/-- The synchronous prefix of the guarded body of
`renderPageWithTransition` (lines 289-313), up to the first suspension
inside `performTransition`: set `isTransitioning`, snapshot the old
canvas, and resolve the destination surface from the cache or a fresh
rasterization.  A host exception at the snapshot is recorded in
`pendingError` and travels to the `catch` in `transitionFinish`. -/
def transitionBegin (o : Oracle) (s : AppState) : AppState :=
  let s1 := { s with isTransitioning := true,
                     transitionsStarted := s.transitionsStarted + 1 }
  if o.throwAt = some Step.capture then { s1 with pendingError := true }
  else
    let s2 := { s1 with pendingOld := s1.displayed }
    if mapHas s2.pageCache s2.currentPage then
      { s2 with pendingNew := mapGet s2.pageCache s2.currentPage }
    else
      let r := PDFHandler.renderPage o.rasterOk s2.loaded s2.currentPage
      { s2 with pendingNew := r.2,
                rasterLog := s2.rasterLog ++ [s2.currentPage] }

/-- The `finally` clause of `renderPageWithTransition` (lines 349-351)
together with the end of one page-change operation: clear
`isTransitioning` and drop the transient per-operation surfaces. -/
def finishReset (t : AppState) : AppState :=
  { t with isTransitioning := false, pendingError := false,
           pendingOld := none, pendingNew := none }

/-- The rest of `renderPageWithTransition` (lines 315-351): resize the
WebGL canvas, run `performTransition` (hard-coded 800 ms duration),
commit the destination surface to the visible canvas, fire the
prefetch; a pending or fresh exception jumps to the `catch`, whose
fallback is a plain `renderPage`; the `finally` (`finishReset`) always
clears `isTransitioning`. -/
def transitionFinish (o : Oracle) (s : AppState) : AppState :=
  finishReset
    (if s.pendingError then renderPage o s
    else if o.throwAt = some Step.resize then renderPage o s
    else
      let t := WebGLUtils.performTransition s.pendingOld s.pendingNew
        s.currentTransition 800 1 o.programOk o.schedule
      let s1 := { s with transitionFrames := s.transitionFrames + t.framesDrawn }
      if o.throwAt = some Step.commit then renderPage o s1
      else
        let s2 := { s1 with displayed := s1.pendingNew }
        prerenderAdjacentPages o s2)

/-- `renderPageWithTransition` (lines 279-352): without a document or a
WebGL context fall back to the plain `renderPage`; drop the request if
a transition is already in flight; otherwise run the guarded body. -/
def renderPageWithTransition (o : Oracle) (s : AppState) : AppState :=
  if !s.loaded || !s.webglOk then renderPage o s
  else if s.isTransitioning then s
  else transitionFinish o (transitionBegin o s)

/-- `goToPreviousPage` (lines 147-152). -/
def goToPreviousPage (o : Oracle) (s : AppState) : AppState :=
  if 1 < s.currentPage ∧ s.isTransitioning = false then
    renderPageWithTransition o { s with currentPage := s.currentPage - 1 }
  else s

/-- `goToNextPage` (lines 154-159). -/
def goToNextPage (o : Oracle) (s : AppState) : AppState :=
  if s.currentPage < s.totalPages ∧ s.isTransitioning = false then
    renderPageWithTransition o { s with currentPage := s.currentPage + 1 }
  else s

/-- A navigation request from the UI (button, arrow key). -/
inductive NavReq where
  | next
  | prev
deriving DecidableEq, Repr

/-- Dispatch one navigation request. -/
def applyNav (o : Oracle) (r : NavReq) (s : AppState) : AppState :=
  match r with
  | NavReq.next => goToNextPage o s
  | NavReq.prev => goToPreviousPage o s

/-- Dispatch a sequence of navigation requests, oldest first. -/
def applyNavs (o : Oracle) (rs : List NavReq) (s : AppState) : AppState :=
  rs.foldl (fun s r => applyNav o r s) s

/-- External events the loaded viewer reacts to: the two navigation
requests and a plain re-render (as on a fullscreen change). -/
inductive Ev where
  | next
  | prev
  | rerender
deriving DecidableEq, Repr

/-- One event step of the loaded viewer. -/
def step (o : Oracle) (s : AppState) : Ev → AppState
  | Ev.next => goToNextPage o s
  | Ev.prev => goToPreviousPage o s
  | Ev.rerender => renderPage o s

/-- Run a sequence of events. -/
def run (o : Oracle) (s : AppState) : List Ev → AppState
  | [] => s
  | e :: es => run o (step o s e) es

/-- The state right after a successful `handlePDFUpload` of an
`n`-page document (lines 126-145): page 1 shown, empty cache, both
guards clear. -/
def initState (n : ℤ) : AppState :=
  { currentPage := 1, totalPages := n, loaded := true, webglOk := true,
    isTransitioning := false, isPrerendering := false,
    currentTransition := "fade", pageCache := [], displayed := some 1,
    pendingOld := none, pendingNew := none, pendingError := false,
    rasterLog := [1], transitionsStarted := 0, transitionFrames := 0 }

/-- Every cache entry for page `p` holds the rasterized pixels of page
`p` (true of every entry written by a successful pre-render). -/
def CacheWf (m : List (ℤ × Surface)) : Prop :=
  ∀ kv ∈ m, kv.2 = some kv.1

/-- Reachability invariant for claim C9: the current page stays inside
the document and every rasterization request ever issued was for a page
inside the document. -/
def PageInv (s : AppState) : Prop :=
  1 ≤ s.currentPage ∧ s.currentPage ≤ s.totalPages ∧
    ∀ p ∈ s.rasterLog, 1 ≤ p ∧ p ≤ s.totalPages

/-- A benign environment: every page rasterizes, the shader program
compiles, nothing throws, and the host delivers animation frames at
0 ms, 400 ms and 800 ms. -/
def oPlain : Oracle :=
  { rasterOk := fun _ => true, programOk := true, throwAt := none,
    schedule := [0, 400, 800] }

/-- An environment in which rasterizing page 2 fails (PDF.js rejects the
render of that page) while everything else behaves. -/
def oRasterFail2 : Oracle :=
  { rasterOk := fun p => decide (p ≠ 2), programOk := true, throwAt := none,
    schedule := [0, 400, 800] }

/-- The viewer about to run a page-change to page 2 of a 3-page
document: the navigation guard has just moved `currentPage` from 1 to
2, page 1 is displayed and the cache is empty (so the destination must
be rasterized afresh). -/
def sGotoPage2 : AppState :=
  { currentPage := 2, totalPages := 3, loaded := true, webglOk := true,
    isTransitioning := false, isPrerendering := false,
    currentTransition := "fade", pageCache := [], displayed := some 1,
    pendingOld := none, pendingNew := none, pendingError := false,
    rasterLog := [], transitionsStarted := 0, transitionFrames := 0 }

/-- The viewer on page 3 of a 10-page document right after navigating
from page 2, where the preceding prefetch pass (run at page 2) left the
cache holding pages 1, 2 and 3. -/
def sPageThree : AppState :=
  { currentPage := 3, totalPages := 10, loaded := true, webglOk := true,
    isTransitioning := false, isPrerendering := false,
    currentTransition := "fade",
    pageCache := [(1, some 1), (2, some 2), (3, some 3)],
    displayed := some 3, pendingOld := none, pendingNew := none,
    pendingError := false, rasterLog := [], transitionsStarted := 0,
    transitionFrames := 0 }

/- ------------------------------------------------------------------
   Helper lemmas
   ------------------------------------------------------------------ -/

theorem any_map_eq (l : List (ℤ × Surface))
    (f : (ℤ × Surface) → (ℤ × Surface)) (p : (ℤ × Surface) → Bool)
    (h : ∀ e ∈ l, p (f e) = p e) : (l.map f).any p = l.any p := by
  induction l with
  | nil => rfl
  | cons e tl ih =>
    simp only [List.map_cons, List.any_cons]
    rw [h e (by simp), ih (fun x hx => h x (by simp [hx]))]

theorem mapHas_mapSet_self (m : List (ℤ × Surface)) (k : ℤ) (v : Surface) :
    mapHas (mapSet m k v) k = true := by
  unfold mapSet
  split
  · next h =>
    unfold mapHas at h ⊢
    rw [List.any_map]
    rw [List.any_eq_true] at h ⊢
    obtain ⟨e, he, hk⟩ := h
    refine ⟨e, he, ?_⟩
    have hek : e.1 = k := by simpa using hk
    simp [Function.comp, hek]
  · unfold mapHas
    rw [List.any_append]
    simp

theorem mapHas_mapSet_ne (m : List (ℤ × Surface)) (k k' : ℤ) (v : Surface)
    (h : k' ≠ k) : mapHas (mapSet m k v) k' = mapHas m k' := by
  unfold mapSet
  split
  · unfold mapHas
    apply any_map_eq
    intro e _
    by_cases hek : e.1 = k
    · simp [hek, Ne.symm h]
    · simp [hek]
  · unfold mapHas
    rw [List.any_append]
    simp [Ne.symm h]

theorem cleanup_keys_mem (cur : ℤ) (m : List (ℤ × Surface)) :
    ∀ k ∈ mapKeys (cleanupCache cur m),
      k = cur - 1 ∨ k = cur ∨ k = cur + 1 := by
  intro k hk
  unfold mapKeys cleanupCache at hk
  simp only [List.mem_map, List.mem_filter, decide_eq_true_eq] at hk
  obtain ⟨e, ⟨_, hkeep⟩, rfl⟩ := hk
  simpa [pagesToKeep] using hkeep

theorem cleanup_length_le (cur : ℤ) (m : List (ℤ × Surface))
    (h : (mapKeys m).Nodup) : (cleanupCache cur m).length ≤ 3 := by
  have hsub : List.Sublist (mapKeys (cleanupCache cur m)) (mapKeys m) := by
    unfold mapKeys cleanupCache
    exact List.Sublist.map (fun e => e.1) (List.filter_sublist m)
  have hnd : (mapKeys (cleanupCache cur m)).Nodup := List.Nodup.sublist hsub h
  have hss : mapKeys (cleanupCache cur m) ⊆ pagesToKeep cur := by
    intro k hk
    have := cleanup_keys_mem cur m k hk
    simpa [pagesToKeep] using this
  have hle : (mapKeys (cleanupCache cur m)).length ≤ (pagesToKeep cur).length :=
    (List.Nodup.subperm hnd hss).length_le
  simpa [mapKeys, pagesToKeep] using hle

theorem mapHas_cleanup_of_keep (cur : ℤ) (m : List (ℤ × Surface)) (k : ℤ)
    (hk : k ∈ pagesToKeep cur) :
    mapHas (cleanupCache cur m) k = mapHas m k := by
  unfold mapHas cleanupCache
  cases hm : m.any (fun e => decide (e.1 = k)) with
  | false =>
    rw [List.any_eq_false] at hm ⊢
    intro e he
    exact hm e (List.mem_of_mem_filter he)
  | true =>
    rw [List.any_eq_true] at hm ⊢
    obtain ⟨e, he, hp⟩ := hm
    refine ⟨e, List.mem_filter.mpr ⟨he, ?_⟩, hp⟩
    have hek : e.1 = k := by simpa using hp
    simp [hek, hk]

theorem prerenderNextPhase_fields (o : Oracle) (s : AppState) :
    (prerenderNextPhase o s).currentPage = s.currentPage ∧
    (prerenderNextPhase o s).totalPages = s.totalPages ∧
    (prerenderNextPhase o s).loaded = s.loaded ∧
    (prerenderNextPhase o s).webglOk = s.webglOk ∧
    (prerenderNextPhase o s).isTransitioning = s.isTransitioning ∧
    (prerenderNextPhase o s).isPrerendering = s.isPrerendering ∧
    (prerenderNextPhase o s).displayed = s.displayed ∧
    (prerenderNextPhase o s).transitionsStarted = s.transitionsStarted := by
  unfold prerenderNextPhase
  by_cases h1 : s.currentPage < s.totalPages
  · by_cases h2 : mapHas s.pageCache (s.currentPage + 1) <;> simp [h1, h2]
  · simp [h1]

theorem prerenderPrevPhase_fields (o : Oracle) (s : AppState) :
    (prerenderPrevPhase o s).currentPage = s.currentPage ∧
    (prerenderPrevPhase o s).totalPages = s.totalPages ∧
    (prerenderPrevPhase o s).loaded = s.loaded ∧
    (prerenderPrevPhase o s).webglOk = s.webglOk ∧
    (prerenderPrevPhase o s).isTransitioning = s.isTransitioning ∧
    (prerenderPrevPhase o s).isPrerendering = s.isPrerendering ∧
    (prerenderPrevPhase o s).displayed = s.displayed ∧
    (prerenderPrevPhase o s).transitionsStarted = s.transitionsStarted := by
  unfold prerenderPrevPhase
  by_cases h1 : 1 < s.currentPage
  · by_cases h2 : mapHas s.pageCache (s.currentPage - 1) <;> simp [h1, h2]
  · simp [h1]

theorem prerenderAdjacentPages_fields (o : Oracle) (s : AppState) :
    (prerenderAdjacentPages o s).currentPage = s.currentPage ∧
    (prerenderAdjacentPages o s).totalPages = s.totalPages ∧
    (prerenderAdjacentPages o s).loaded = s.loaded ∧
    (prerenderAdjacentPages o s).webglOk = s.webglOk ∧
    (prerenderAdjacentPages o s).isTransitioning = s.isTransitioning ∧
    (prerenderAdjacentPages o s).displayed = s.displayed ∧
    (prerenderAdjacentPages o s).transitionsStarted = s.transitionsStarted := by
  unfold prerenderAdjacentPages
  split
  · simp
  · obtain h1 := prerenderNextPhase_fields o { s with isPrerendering := true }
    obtain h2 := prerenderPrevPhase_fields o
      (prerenderNextPhase o { s with isPrerendering := true })
    simp only [AppState.mk.injEq] at *
    simp_all

theorem renderPageApp_fields (o : Oracle) (s : AppState) :
    (renderPage o s).currentPage = s.currentPage ∧
    (renderPage o s).totalPages = s.totalPages ∧
    (renderPage o s).loaded = s.loaded ∧
    (renderPage o s).webglOk = s.webglOk ∧
    (renderPage o s).isTransitioning = s.isTransitioning ∧
    (renderPage o s).transitionsStarted = s.transitionsStarted := by
  unfold renderPage
  by_cases h0 : s.loaded = true
  · obtain h := prerenderAdjacentPages_fields o
      { s with displayed := (PDFHandler.renderPage o.rasterOk s.loaded s.currentPage).2,
               rasterLog := s.rasterLog ++ [s.currentPage] }
    cases hr : (PDFHandler.renderPage o.rasterOk s.loaded s.currentPage).1 <;>
      simp_all [h0, hr]
  · simp [Bool.eq_false_iff.mpr h0]

theorem transitionBegin_fields (o : Oracle) (s : AppState) :
    (transitionBegin o s).currentPage = s.currentPage ∧
    (transitionBegin o s).totalPages = s.totalPages ∧
    (transitionBegin o s).loaded = s.loaded ∧
    (transitionBegin o s).webglOk = s.webglOk ∧
    (transitionBegin o s).isTransitioning = true ∧
    (transitionBegin o s).displayed = s.displayed ∧
    (transitionBegin o s).transitionsStarted = s.transitionsStarted + 1 := by
  unfold transitionBegin
  by_cases h1 : o.throwAt = some Step.capture
  · simp [h1]
  · by_cases h2 : mapHas s.pageCache s.currentPage <;> simp [h1, h2]

theorem transitionFinish_fields (o : Oracle) (s : AppState) :
    (transitionFinish o s).currentPage = s.currentPage ∧
    (transitionFinish o s).totalPages = s.totalPages ∧
    (transitionFinish o s).isTransitioning = false ∧
    (transitionFinish o s).transitionsStarted = s.transitionsStarted := by
  unfold transitionFinish finishReset
  obtain h1 := renderPageApp_fields o s
  obtain h2 := renderPageApp_fields o
    { s with transitionFrames := s.transitionFrames +
        (WebGLUtils.performTransition s.pendingOld s.pendingNew
          s.currentTransition 800 1 o.programOk o.schedule).framesDrawn }
  obtain h3 := prerenderAdjacentPages_fields o
    { s with displayed := s.pendingNew,
             transitionFrames := s.transitionFrames +
               (WebGLUtils.performTransition s.pendingOld s.pendingNew
                 s.currentTransition 800 1 o.programOk o.schedule).framesDrawn }
  by_cases he : s.pendingError = true
  · simp_all [he]
  · by_cases hr : o.throwAt = some Step.resize
    · simp_all [he, hr]
    · by_cases hc : o.throwAt = some Step.commit
      · simp_all [he, hr, hc]
      · simp_all [he, hr, hc]

theorem renderPageWithTransition_fields (o : Oracle) (s : AppState) :
    (renderPageWithTransition o s).currentPage = s.currentPage ∧
    (renderPageWithTransition o s).totalPages = s.totalPages := by
  unfold renderPageWithTransition
  split
  · obtain h := renderPageApp_fields o s
    simp_all
  · split
    · simp
    · obtain h1 := transitionFinish_fields o (transitionBegin o s)
      obtain h2 := transitionBegin_fields o s
      simp_all

theorem mapGet_of_wf (m : List (ℤ × Surface)) (k : ℤ)
    (hwf : CacheWf m) (h : mapHas m k = true) : mapGet m k = some k := by
  unfold mapGet
  cases hfind : m.find? (fun e => decide (e.1 = k)) with
  | none =>
    exfalso
    unfold mapHas at h
    simp only [List.any_eq_true, decide_eq_true_eq] at h
    obtain ⟨e, he, hk⟩ := h
    have := List.find?_eq_none.mp hfind e he
    simp [hk] at this
  | some e =>
    have hk : e.1 = k := by simpa using List.find?_some hfind
    have hmem : e ∈ m := List.mem_of_find?_eq_some hfind
    simp [hwf e hmem, hk]

theorem mapHas_iff_mem (m : List (ℤ × Surface)) (k : ℤ) :
    mapHas m k = true ↔ k ∈ mapKeys m := by
  unfold mapHas mapKeys
  rw [List.any_eq_true]
  constructor
  · rintro ⟨e, he, hk⟩
    exact List.mem_map.mpr ⟨e, he, by simpa using hk⟩
  · intro hk
    obtain ⟨e, he, hek⟩ := List.mem_map.mp hk
    exact ⟨e, he, by simpa using hek⟩

theorem mapKeys_mapSet (m : List (ℤ × Surface)) (k : ℤ) (v : Surface) :
    mapKeys (mapSet m k v) =
      if mapHas m k then mapKeys m else mapKeys m ++ [k] := by
  unfold mapSet
  split
  · unfold mapKeys
    rw [List.map_map]
    apply List.map_congr_left
    intro e _
    by_cases hek : e.1 = k <;> simp [hek]
  · unfold mapKeys
    simp

theorem mapKeys_mapSet_nodup (m : List (ℤ × Surface)) (k : ℤ) (v : Surface)
    (h : (mapKeys m).Nodup) : (mapKeys (mapSet m k v)).Nodup := by
  rw [mapKeys_mapSet]
  split
  · exact h
  · next hk =>
    have hnot : k ∉ mapKeys m := by
      intro hmem
      exact hk ((mapHas_iff_mem m k).mpr hmem)
    simp [List.nodup_append, h, hnot]

theorem prerenderNextPhase_cache_nodup (o : Oracle) (s : AppState)
    (h : (mapKeys s.pageCache).Nodup) :
    (mapKeys (prerenderNextPhase o s).pageCache).Nodup := by
  unfold prerenderNextPhase
  by_cases h1 : s.currentPage < s.totalPages
  · cases h2 : mapHas s.pageCache (s.currentPage + 1) <;>
      simp [h1, h2, h, mapKeys_mapSet_nodup _ _ _ h]
  · simp [h1, h]

theorem prerenderPrevPhase_cache_nodup (o : Oracle) (s : AppState)
    (h : (mapKeys s.pageCache).Nodup) :
    (mapKeys (prerenderPrevPhase o s).pageCache).Nodup := by
  unfold prerenderPrevPhase
  by_cases h1 : 1 < s.currentPage
  · cases h2 : mapHas s.pageCache (s.currentPage - 1) <;>
      simp [h1, h2, h, mapKeys_mapSet_nodup _ _ _ h]
  · simp [h1, h]

theorem prerenderAdjacentPages_cache_eq (o : Oracle) (s : AppState)
    (h : s.isPrerendering = false) (hL : s.loaded = true) :
    (prerenderAdjacentPages o s).pageCache =
      cleanupCache s.currentPage
        ((prerenderPrevPhase o (prerenderNextPhase o
          { s with isPrerendering := true })).pageCache) := by
  unfold prerenderAdjacentPages
  obtain hA := prerenderNextPhase_fields o { s with isPrerendering := true }
  obtain hB := prerenderPrevPhase_fields o
    (prerenderNextPhase o { s with isPrerendering := true })
  simp only [hL] at hA hB
  simp only [h, hL]
  simp only [Bool.false_eq_true, if_false, Bool.not_true, Bool.or_false]
  rw [hB.1, hA.1]

theorem nextPhase_has (o : Oracle) (s : AppState)
    (hc : s.currentPage < s.totalPages)
    (hn : mapHas s.pageCache (s.currentPage + 1) = false) :
    mapHas (prerenderNextPhase o s).pageCache (s.currentPage + 1) = true := by
  unfold prerenderNextPhase
  simp [hc, hn, mapHas_mapSet_self]

theorem prevPhase_has_self (o : Oracle) (s : AppState)
    (hc : 1 < s.currentPage)
    (hn : mapHas s.pageCache (s.currentPage - 1) = false) :
    mapHas (prerenderPrevPhase o s).pageCache (s.currentPage - 1) = true := by
  unfold prerenderPrevPhase
  simp [hc, hn, mapHas_mapSet_self]

theorem nextPhase_has_preserve (o : Oracle) (s : AppState) (p : ℤ)
    (hne : p ≠ s.currentPage + 1) :
    mapHas (prerenderNextPhase o s).pageCache p = mapHas s.pageCache p := by
  unfold prerenderNextPhase
  by_cases h1 : s.currentPage < s.totalPages
  · cases h2 : mapHas s.pageCache (s.currentPage + 1) <;>
      simp [h1, h2, mapHas_mapSet_ne _ _ _ _ hne]
  · simp [h1]

theorem prevPhase_has_preserve (o : Oracle) (s : AppState) (p : ℤ)
    (hne : p ≠ s.currentPage - 1) :
    mapHas (prerenderPrevPhase o s).pageCache p = mapHas s.pageCache p := by
  unfold prerenderPrevPhase
  by_cases h1 : 1 < s.currentPage
  · cases h2 : mapHas s.pageCache (s.currentPage - 1) <;>
      simp [h1, h2, mapHas_mapSet_ne _ _ _ _ hne]
  · simp [h1]

theorem applyNav_transitioning_id (o : Oracle) (r : NavReq) (s : AppState)
    (h : s.isTransitioning = true) : applyNav o r s = s := by
  cases r <;> simp [applyNav, goToNextPage, goToPreviousPage, h]

theorem applyNavs_transitioning_id (o : Oracle) (rs : List NavReq)
    (s : AppState) (h : s.isTransitioning = true) : applyNavs o rs s = s := by
  induction rs with
  | nil => rfl
  | cons r tl ih =>
    unfold applyNavs
    rw [List.foldl_cons, applyNav_transitioning_id o r s h]
    exact ih

theorem transitionFinish_clean_displayed (o : Oracle) (s : AppState)
    (hErr : s.pendingError = false) (hT : o.throwAt = none) :
    (transitionFinish o s).displayed = s.pendingNew := by
  unfold transitionFinish finishReset
  obtain hp := prerenderAdjacentPages_fields o
    { s with displayed := s.pendingNew,
             transitionFrames := s.transitionFrames +
               (WebGLUtils.performTransition s.pendingOld s.pendingNew
                 s.currentTransition 800 1 o.programOk o.schedule).framesDrawn }
  rw [hT] at *
  simp_all [hErr]

theorem prerenderNextPhase_inv (o : Oracle) (s : AppState) (h : PageInv s) :
    PageInv (prerenderNextPhase o s) := by
  obtain ⟨h1, h2, h3⟩ := h
  obtain hf := prerenderNextPhase_fields o s
  refine ⟨by rw [hf.1]; exact h1, by rw [hf.1, hf.2.1]; exact h2, ?_⟩
  rw [hf.2.1]
  intro p hp
  unfold prerenderNextPhase at hp
  by_cases c1 : s.currentPage < s.totalPages
  · cases c2 : mapHas s.pageCache (s.currentPage + 1)
    · simp [c1, c2] at hp
      rcases hp with hp | hp
      · exact h3 p hp
      · subst hp
        omega
    · simp [c1, c2] at hp
      exact h3 p hp
  · simp [c1] at hp
    exact h3 p hp

theorem prerenderPrevPhase_inv (o : Oracle) (s : AppState) (h : PageInv s) :
    PageInv (prerenderPrevPhase o s) := by
  obtain ⟨h1, h2, h3⟩ := h
  obtain hf := prerenderPrevPhase_fields o s
  refine ⟨by rw [hf.1]; exact h1, by rw [hf.1, hf.2.1]; exact h2, ?_⟩
  rw [hf.2.1]
  intro p hp
  unfold prerenderPrevPhase at hp
  by_cases c1 : 1 < s.currentPage
  · cases c2 : mapHas s.pageCache (s.currentPage - 1)
    · simp [c1, c2] at hp
      rcases hp with hp | hp
      · exact h3 p hp
      · subst hp
        omega
    · simp [c1, c2] at hp
      exact h3 p hp
  · simp [c1] at hp
    exact h3 p hp

theorem prerenderAdjacentPages_inv (o : Oracle) (s : AppState)
    (h : PageInv s) : PageInv (prerenderAdjacentPages o s) := by
  unfold prerenderAdjacentPages
  split
  · exact h
  · exact prerenderPrevPhase_inv o _ (prerenderNextPhase_inv o _ h)

theorem renderPageApp_inv (o : Oracle) (s : AppState) (h : PageInv s) :
    PageInv (renderPage o s) := by
  obtain ⟨h1, h2, h3⟩ := h
  have hs1 : PageInv { s with
      displayed := (PDFHandler.renderPage o.rasterOk s.loaded s.currentPage).2,
      rasterLog := s.rasterLog ++ [s.currentPage] } := by
    refine ⟨h1, h2, ?_⟩
    intro p hp
    rw [List.mem_append] at hp
    rcases hp with hp | hp
    · exact h3 p hp
    · rw [List.mem_singleton] at hp
      subst hp
      exact ⟨h1, h2⟩
  unfold renderPage
  split
  · exact ⟨h1, h2, h3⟩
  · cases hr : (PDFHandler.renderPage o.rasterOk s.loaded s.currentPage).1
    · simp only [hr]
      exact hs1
    · simp only [hr]
      exact prerenderAdjacentPages_inv o _ hs1

theorem transitionBegin_log (o : Oracle) (s : AppState) :
    (transitionBegin o s).rasterLog = s.rasterLog ∨
      (transitionBegin o s).rasterLog = s.rasterLog ++ [s.currentPage] := by
  unfold transitionBegin
  by_cases c1 : o.throwAt = some Step.capture
  · left
    simp [c1]
  · by_cases c2 : mapHas s.pageCache s.currentPage = true
    · left
      simp [c1, c2]
    · right
      simp [c1, c2]

theorem transitionBegin_inv (o : Oracle) (s : AppState) (h : PageInv s) :
    PageInv (transitionBegin o s) := by
  obtain ⟨h1, h2, h3⟩ := h
  obtain hb := transitionBegin_fields o s
  refine ⟨by rw [hb.1]; exact h1, by rw [hb.1, hb.2.1]; exact h2, ?_⟩
  rw [hb.2.1]
  intro p hp
  rcases transitionBegin_log o s with hl | hl <;> rw [hl] at hp
  · exact h3 p hp
  · rw [List.mem_append, List.mem_singleton] at hp
    rcases hp with hp | hp
    · exact h3 p hp
    · subst hp
      exact ⟨h1, h2⟩

theorem finishReset_inv (t : AppState) (h : PageInv t) :
    PageInv (finishReset t) := h

theorem transitionFinish_inv (o : Oracle) (s : AppState) (h : PageInv s) :
    PageInv (transitionFinish o s) := by
  unfold transitionFinish
  apply finishReset_inv
  by_cases he : s.pendingError = true
  · simp only [he, if_true]
    exact renderPageApp_inv o s h
  · by_cases hr : o.throwAt = some Step.resize
    · simp only [he, hr, if_true, if_false, Bool.false_eq_true]
      exact renderPageApp_inv o s h
    · by_cases hc : o.throwAt = some Step.commit
      · simp only [he, hr, hc, if_true, if_false, Bool.false_eq_true]
        exact renderPageApp_inv o _ h
      · simp only [he, hr, hc, if_false, Bool.false_eq_true]
        exact prerenderAdjacentPages_inv o _ h

theorem renderPageWithTransition_inv (o : Oracle) (s : AppState)
    (h : PageInv s) : PageInv (renderPageWithTransition o s) := by
  unfold renderPageWithTransition
  split
  · exact renderPageApp_inv o s h
  · split
    · exact h
    · exact transitionFinish_inv o _ (transitionBegin_inv o _ h)

theorem goToNextPage_inv (o : Oracle) (s : AppState) (h : PageInv s) :
    PageInv (goToNextPage o s) := by
  obtain ⟨h1, h2, h3⟩ := h
  unfold goToNextPage
  split
  · next hg =>
    obtain ⟨hg1, hg2⟩ := hg
    exact renderPageWithTransition_inv o _
      ⟨(by omega : (1 : ℤ) ≤ s.currentPage + 1),
       (by omega : s.currentPage + 1 ≤ s.totalPages), h3⟩
  · exact ⟨h1, h2, h3⟩

theorem goToPreviousPage_inv (o : Oracle) (s : AppState) (h : PageInv s) :
    PageInv (goToPreviousPage o s) := by
  obtain ⟨h1, h2, h3⟩ := h
  unfold goToPreviousPage
  split
  · next hg =>
    obtain ⟨hg1, hg2⟩ := hg
    exact renderPageWithTransition_inv o _
      ⟨(by omega : (1 : ℤ) ≤ s.currentPage - 1),
       (by omega : s.currentPage - 1 ≤ s.totalPages), h3⟩
  · exact ⟨h1, h2, h3⟩

theorem step_inv (o : Oracle) (s : AppState) (e : Ev) (h : PageInv s) :
    PageInv (step o s e) := by
  cases e
  · exact goToNextPage_inv o s h
  · exact goToPreviousPage_inv o s h
  · exact renderPageApp_inv o s h

theorem run_inv (o : Oracle) (evs : List Ev) (s : AppState) (h : PageInv s) :
    PageInv (run o s evs) := by
  induction evs generalizing s with
  | nil => exact h
  | cons e tl ih => exact ih (step o s e) (step_inv o s e h)

theorem initState_inv (n : ℤ) (hn : 1 ≤ n) : PageInv (initState n) := by
  refine ⟨by norm_num [initState], by simpa [initState] using hn, ?_⟩
  intro p hp
  simp [initState] at hp
  subst hp
  exact ⟨by norm_num [initState], by simpa [initState] using hn⟩

theorem goToNextPage_cur (o : Oracle) (s : AppState) :
    (goToNextPage o s).currentPage = s.currentPage + 1 ∨
      (goToNextPage o s).currentPage = s.currentPage := by
  unfold goToNextPage
  split
  · left
    obtain hf := renderPageWithTransition_fields o
      { s with currentPage := s.currentPage + 1 }
    rw [hf.1]
  · right
    rfl

theorem goToPreviousPage_cur (o : Oracle) (s : AppState) :
    (goToPreviousPage o s).currentPage = s.currentPage - 1 ∨
      (goToPreviousPage o s).currentPage = s.currentPage := by
  unfold goToPreviousPage
  split
  · left
    obtain hf := renderPageWithTransition_fields o
      { s with currentPage := s.currentPage - 1 }
    rw [hf.1]
  · right
    rfl

/- ------------------------------------------------------------------
   Claim theorems
   ------------------------------------------------------------------ -/

/-- C1: while a transition is in flight (`isTransitioning = true`, the
state reached by the synchronous prefix `transitionBegin` of the first
accepted navigation), every further navigation request is a complete
no-op — the state, `currentPage` included, is unchanged and no second
transition starts — and completing the in-flight transition produces
exactly the state of the single accepted navigation, displaying the
target of that first accepted request (`currentPage + 1`), with exactly
one transition started. -/
theorem nav_during_transition_ignored (o : Oracle) (s : AppState)
    (reqs : List NavReq)
    (hL : s.loaded = true) (hG : s.webglOk = true)
    (hIdle : s.isTransitioning = false) (hErr : s.pendingError = false)
    (hAcc : s.currentPage < s.totalPages)
    (hT : o.throwAt = none)
    (hR : o.rasterOk (s.currentPage + 1) = true)
    (hWf : CacheWf s.pageCache) :
    (transitionBegin o { s with currentPage := s.currentPage + 1 }).isTransitioning
        = true ∧
    applyNavs o reqs
        (transitionBegin o { s with currentPage := s.currentPage + 1 }) =
      transitionBegin o { s with currentPage := s.currentPage + 1 } ∧
    transitionFinish o
        (applyNavs o reqs
          (transitionBegin o { s with currentPage := s.currentPage + 1 })) =
      goToNextPage o s ∧
    (goToNextPage o s).currentPage = s.currentPage + 1 ∧
    (goToNextPage o s).displayed = some (s.currentPage + 1) ∧
    (goToNextPage o s).transitionsStarted = s.transitionsStarted + 1 ∧
    (goToNextPage o s).isTransitioning = false := by
  obtain hb := transitionBegin_fields o { s with currentPage := s.currentPage + 1 }
  obtain hf := transitionFinish_fields o
    (transitionBegin o { s with currentPage := s.currentPage + 1 })
  have hmidT : (transitionBegin o
      { s with currentPage := s.currentPage + 1 }).isTransitioning = true :=
    hb.2.2.2.2.1
  have hnav : applyNavs o reqs
      (transitionBegin o { s with currentPage := s.currentPage + 1 }) =
      transitionBegin o { s with currentPage := s.currentPage + 1 } :=
    applyNavs_transitioning_id o reqs _ hmidT
  have hgoto : goToNextPage o s =
      transitionFinish o
        (transitionBegin o { s with currentPage := s.currentPage + 1 }) := by
    unfold goToNextPage renderPageWithTransition
    simp [hAcc, hIdle, hL, hG]
  have hPE : (transitionBegin o
      { s with currentPage := s.currentPage + 1 }).pendingError = false ∧
      (transitionBegin o
        { s with currentPage := s.currentPage + 1 }).pendingNew =
        some (s.currentPage + 1) := by
    unfold transitionBegin
    rw [hT]
    by_cases hc : mapHas s.pageCache (s.currentPage + 1)
    · have hg := mapGet_of_wf s.pageCache (s.currentPage + 1) hWf hc
      simp [hc, hg, hErr]
    · simp [hc, PDFHandler.renderPage, hL, hR, hErr]
  refine ⟨hmidT, hnav, by rw [hnav, hgoto], ?_, ?_, ?_, ?_⟩
  · rw [hgoto]
    rw [hf.1, hb.1]
  · rw [hgoto]
    rw [transitionFinish_clean_displayed o _ hPE.1 hT, hPE.2]
  · rw [hgoto]
    rw [hf.2.2.2, hb.2.2.2.2.2.2]
  · rw [hgoto]
    exact hf.2.2.1

/-- C1 witness: from page 1 of a 2-page document, with three rapid
requests issued during the in-flight transition to page 2, all seven
conjuncts hold at the concrete input. -/
theorem nav_during_transition_ignored_witness :
    (transitionBegin oPlain
        { initState 2 with currentPage := (initState 2).currentPage + 1 }).isTransitioning
        = true ∧
    applyNavs oPlain [NavReq.next, NavReq.next, NavReq.prev]
        (transitionBegin oPlain
          { initState 2 with currentPage := (initState 2).currentPage + 1 }) =
      transitionBegin oPlain
        { initState 2 with currentPage := (initState 2).currentPage + 1 } ∧
    transitionFinish oPlain
        (applyNavs oPlain [NavReq.next, NavReq.next, NavReq.prev]
          (transitionBegin oPlain
            { initState 2 with currentPage := (initState 2).currentPage + 1 })) =
      goToNextPage oPlain (initState 2) ∧
    (goToNextPage oPlain (initState 2)).currentPage =
      (initState 2).currentPage + 1 ∧
    (goToNextPage oPlain (initState 2)).displayed =
      some ((initState 2).currentPage + 1) ∧
    (goToNextPage oPlain (initState 2)).transitionsStarted =
      (initState 2).transitionsStarted + 1 ∧
    (goToNextPage oPlain (initState 2)).isTransitioning = false :=
  nav_during_transition_ignored oPlain (initState 2)
    [NavReq.next, NavReq.next, NavReq.prev]
    rfl rfl rfl rfl (by decide) rfl rfl
    (fun kv hkv => absurd hkv (List.not_mem_nil kv))

/-- C10: any invocation of `renderPageWithTransition` from a
non-transitioning state — the only way its callers invoke it —
terminates with `isTransitioning = false`, whatever the environment
does (rasterization failure, program-compilation failure, a host
exception at any step): the `finally` clause always clears the flag,
so one failed page change can never permanently block navigation. -/
theorem is_transitioning_always_reset (o : Oracle) (s : AppState)
    (h : s.isTransitioning = false) :
    (renderPageWithTransition o s).isTransitioning = false := by
  unfold renderPageWithTransition
  obtain hf := renderPageApp_fields o s
  obtain hfin := transitionFinish_fields o (transitionBegin o s)
  by_cases h1 : (!s.loaded || !s.webglOk) = true <;> simp_all [h, h1]

/-- C10 witness: the reset holds at the concrete initial 3-page state
under the benign environment. -/
theorem is_transitioning_always_reset_witness :
    (renderPageWithTransition oPlain (initState 3)).isTransitioning = false :=
  is_transitioning_always_reset oPlain (initState 3) rfl

/-- C2 (code_bug evidence): for `duration ≤ 0` the `animate` loop of
`performTransition` does NOT immediately resolve at progress 1.  For
every negative duration the loop never resolves at all — at every
frame `progress = min(elapsed/duration, 1)` is nonpositive, so
`progress < 1.0` holds and another frame is scheduled, for any frame
schedule whatsoever (an infinite loop in the real program).  For
`duration = 0` the very first frame computes `0 / 0 = NaN`,
`Math.min(NaN, 1) = NaN`, draws a frame with the progress uniform set
to NaN, and resolves with last progress NaN, not 1. -/
theorem animate_loop_nonpositive_duration_bug :
    (∀ (d : ℚ) (es : List ℚ) (n : ℕ), d < 0 → (∀ e ∈ es, 0 ≤ e) →
      WebGLUtils.animateLoop d es n =
        WebGLUtils.AnimOutcome.pending (n + es.length)) ∧
    WebGLUtils.animateLoop 0 [0] 0 =
      WebGLUtils.AnimOutcome.resolved 1 WebGLUtils.JSNum.nan := by
  constructor
  · intro d es
    induction es with
    | nil =>
      intro n _ _
      simp [WebGLUtils.animateLoop]
    | cons e tl ih =>
      intro n hd hall
      have he : (0 : ℚ) ≤ e := hall e (by simp)
      have hne : d ≠ 0 := ne_of_lt hd
      have hq : e / d ≤ 0 := by
        rw [div_eq_mul_inv]
        exact mul_nonpos_of_nonneg_of_nonpos he (inv_nonpos.mpr hd.le)
      have hstep : WebGLUtils.jsLt (WebGLUtils.progressAt d e)
          (WebGLUtils.JSNum.fin 1) = true := by
        unfold WebGLUtils.progressAt WebGLUtils.jsDiv
        rw [if_neg hne]
        show WebGLUtils.jsLt (WebGLUtils.jsMin _ _) _ = true
        unfold WebGLUtils.jsMin WebGLUtils.jsLt
        simp only [decide_eq_true_eq]
        have : min (e / d) 1 ≤ 0 := le_trans (min_le_left _ _) hq
        linarith
      have htl : ∀ e ∈ tl, (0 : ℚ) ≤ e := fun x hx => hall x (by simp [hx])
      calc WebGLUtils.animateLoop d (e :: tl) n
          = WebGLUtils.animateLoop d tl (n + 1) := by
            conv_lhs => rw [WebGLUtils.animateLoop]
            simp [hstep]
        _ = WebGLUtils.AnimOutcome.pending (n + (e :: tl).length) := by
            rw [ih (n + 1) hd htl]
            simp only [List.length_cons]
            congr 1
            omega
  · decide

/-- C2 witness: the loop run at duration −800 against the concrete
frame schedule 0 ms, 16 ms, 32 ms draws three frames and is still
pending (still scheduling frames). -/
theorem animate_loop_nonpositive_duration_bug_witness :
    WebGLUtils.animateLoop (-800) [0, 16, 32] 0 =
      WebGLUtils.AnimOutcome.pending (0 + 3) ∧
    WebGLUtils.animateLoop 0 [0] 0 =
      WebGLUtils.AnimOutcome.resolved 1 WebGLUtils.JSNum.nan := by
  refine ⟨?_, animate_loop_nonpositive_duration_bug.2⟩
  have h := animate_loop_nonpositive_duration_bug.1 (-800) [0, 16, 32] 0
    (by norm_num) (by intro e he; fin_cases he <;> norm_num)
  simpa using h

/-- C3 counterexample: the cache can hold 4 entries at an observable
point of execution.  With the viewer on page 3 of a 10-page document
and the cache holding pages 1, 2, 3 (exactly what the prefetch pass run
while page 2 was current leaves behind), the prefetch pass at page 3
sets `isPrerendering` and first pre-renders page 4; at the `await`
suspension before the cleanup runs, the cache holds the 4 entries
1, 2, 3, 4 — refuting "at every point in execution the page cache
holds at most 3 entries".  (The full pass does end with 3 entries.) -/
theorem cache_four_entries_mid_prefetch :
    (prerenderNextPhase oPlain
        { sPageThree with isPrerendering := true }).pageCache.length = 4 ∧
    ¬ (prerenderNextPhase oPlain
        { sPageThree with isPrerendering := true }).pageCache.length ≤ 3 ∧
    (prerenderAdjacentPages oPlain sPageThree).pageCache.length = 3 := by
  refine ⟨by decide, by decide, by decide⟩

/-- C3 (amended): after any cleanup pass (`cleanupCache`) completes,
every key in the cache is in {currentPage−1, currentPage, currentPage+1}
and hence (keys being unique, as in a JS `Map`) the cache holds at most
3 entries; between the insertions of a prefetch pass and its cleanup
the cache may transiently hold a fourth entry. -/
theorem cleanup_pass_cache_bounds (cur : ℤ) (m : List (ℤ × Surface))
    (h : (mapKeys m).Nodup) :
    (∀ k ∈ mapKeys (cleanupCache cur m),
      k = cur - 1 ∨ k = cur ∨ k = cur + 1) ∧
    (cleanupCache cur m).length ≤ 3 :=
  ⟨cleanup_keys_mem cur m, cleanup_length_le cur m h⟩

/-- C3 witness: the cleanup pass at page 3 over the concrete cache
{1 ↦ p1, 2 ↦ p2, 3 ↦ p3} satisfies the amended bounds. -/
theorem cleanup_pass_cache_bounds_witness :
    (∀ k ∈ mapKeys (cleanupCache 3 [(1, some 1), (2, some 2), (3, some 3)]),
      k = 3 - 1 ∨ k = 3 ∨ k = 3 + 1) ∧
    (cleanupCache 3 [(1, some 1), (2, some 2), (3, some 3)]).length ≤ 3 :=
  cleanup_pass_cache_bounds 3 [(1, some 1), (2, some 2), (3, some 3)]
    (by decide)

/-- C4 (code_bug evidence): when rasterizing the destination page
fails, `renderPageWithTransition` does NOT fall back to a plain
non-animated display.  `PDFHandler.renderPage` swallows the error and
returns `null`, the orchestrator never checks that result, so the
transition animation still runs (three frames are drawn against the
schedule 0/400/800 ms) and a blank canvas — not the destination page —
is committed to the display; the `catch` fallback is never reached.
The prefetch afterwards does still run (pages 3 and 1 are requested). -/
theorem raster_failure_still_animates :
    (renderPageWithTransition oRasterFail2 sGotoPage2).transitionFrames = 3 ∧
    (renderPageWithTransition oRasterFail2 sGotoPage2).transitionsStarted = 1 ∧
    (renderPageWithTransition oRasterFail2 sGotoPage2).displayed = none ∧
    (renderPageWithTransition oRasterFail2 sGotoPage2).rasterLog = [2, 3, 1] ∧
    (renderPageWithTransition oRasterFail2 sGotoPage2).isTransitioning = false := by
  have h : WebGLUtils.performTransition (some 1) none "fade" 800 1 true
      [0, 400, 800] =
      { resolvedNow := true, framesDrawn := 3,
        lastProgress := some (WebGLUtils.JSNum.fin 1) } := by
    norm_num [WebGLUtils.performTransition, WebGLUtils.animateLoop,
      WebGLUtils.progressAt, WebGLUtils.jsDiv, WebGLUtils.jsMin,
      WebGLUtils.jsLt]
  simp [renderPageWithTransition, transitionBegin, transitionFinish,
    finishReset, renderPage, prerenderAdjacentPages, prerenderNextPhase,
    prerenderPrevPhase, cleanupCache, pagesToKeep, mapHas, mapSet, mapGet,
    PDFHandler.renderPage, oRasterFail2, sGotoPage2, h]

/-- C5: every `transitionType` outside {fade, slide, zoom} selects
exactly the fragment shader selected for "fade", whose blend is the
linear cross-blend `mix(color1, color2, u_progress)`; at progress 0.5
each channel is the exact midpoint of the two inputs. -/
theorem unknown_transition_falls_back_to_fade (t : String) (c1 c2 : ℚ)
    (h1 : t ≠ "fade") (h2 : t ≠ "slide") (h3 : t ≠ "zoom") :
    WebGLUtils.getFragmentShaderForTransition t =
      WebGLUtils.getFragmentShaderForTransition "fade" ∧
    WebGLUtils.fadeFragmentOutput c1 c2 (1 / 2) = (c1 + c2) / 2 := by
  constructor
  · simp [WebGLUtils.getFragmentShaderForTransition, h1, h2, h3]
  · unfold WebGLUtils.fadeFragmentOutput WebGLUtils.glslMix
    ring

/-- C5 witness: the unrecognized transition type "cube" selects the
fade shader, and the fade blend of channels 0 and 1 at progress 0.5 is
the midpoint 1/2. -/
theorem unknown_transition_falls_back_to_fade_witness :
    WebGLUtils.getFragmentShaderForTransition "cube" =
      WebGLUtils.getFragmentShaderForTransition "fade" ∧
    WebGLUtils.fadeFragmentOutput 0 1 (1 / 2) = (0 + 1) / 2 :=
  unknown_transition_falls_back_to_fade "cube" 0 1
    (by decide) (by decide) (by decide)

/-- C6: for every pair of input surfaces and every descriptor, when
shader-program creation fails `performTransition` resolves immediately
with no frame drawn; its outcome type has no rejection case at all,
mirroring the source promise whose executor only ever calls `resolve`. -/
theorem perform_transition_program_failure_resolves
    (fromImage toImage : Surface) (transitionType : String)
    (duration direction : ℚ) (schedule : List ℚ) :
    WebGLUtils.performTransition fromImage toImage transitionType duration
      direction false schedule =
      { resolvedNow := true, framesDrawn := 0, lastProgress := none } :=
  rfl

/-- C7: the cleanup pass is idempotent — running `cleanupCache` twice
with the same current page produces exactly the cache state of running
it once. -/
theorem cleanup_cache_idempotent (cur : ℤ) (m : List (ℤ × Surface)) :
    cleanupCache cur (cleanupCache cur m) = cleanupCache cur m := by
  unfold cleanupCache
  rw [List.filter_filter]
  simp

/-- C8: a prefetch call with one already in flight is a complete
no-op; otherwise the pass issues rasterization requests for exactly
those of `currentPage + 1` and `currentPage - 1` that are inside
[1, totalPages] and not already cached, inserts the results (they are
present in the final cache), and then runs the cleanup pass (every
remaining key is adjacent to the current page and at most 3 entries
remain). -/
theorem prerender_adjacent_spec (o : Oracle) (s : AppState)
    (hL : s.loaded = true)
    (hlow : 1 ≤ s.currentPage) (hhigh : s.currentPage ≤ s.totalPages)
    (hnd : (mapKeys s.pageCache).Nodup) :
    (s.isPrerendering = true → prerenderAdjacentPages o s = s) ∧
    (s.isPrerendering = false →
      ∃ reqs : List ℤ,
        (prerenderAdjacentPages o s).rasterLog = s.rasterLog ++ reqs ∧
        (∀ p : ℤ, p ∈ reqs ↔
          ((p = s.currentPage + 1 ∨ p = s.currentPage - 1) ∧
            1 ≤ p ∧ p ≤ s.totalPages ∧ mapHas s.pageCache p = false)) ∧
        (∀ p ∈ reqs, mapHas (prerenderAdjacentPages o s).pageCache p = true) ∧
        (∀ k ∈ mapKeys (prerenderAdjacentPages o s).pageCache,
          k = s.currentPage - 1 ∨ k = s.currentPage ∨ k = s.currentPage + 1) ∧
        (prerenderAdjacentPages o s).pageCache.length ≤ 3) := by
  constructor
  · intro h
    unfold prerenderAdjacentPages
    simp [h]
  · intro h
    have hcache := prerenderAdjacentPages_cache_eq o s h hL
    have hA := prerenderNextPhase_fields o { s with isPrerendering := true }
    have hndB : (mapKeys ((prerenderPrevPhase o (prerenderNextPhase o
        { s with isPrerendering := true })).pageCache)).Nodup :=
      prerenderPrevPhase_cache_nodup o _
        (prerenderNextPhase_cache_nodup o _ hnd)
    refine ⟨(if s.currentPage < s.totalPages ∧
          mapHas s.pageCache (s.currentPage + 1) = false
        then [s.currentPage + 1] else []) ++
      (if 1 < s.currentPage ∧ mapHas s.pageCache (s.currentPage - 1) = false
        then [s.currentPage - 1] else []), ?_, ?_, ?_, ?_, ?_⟩
    · have hprev : ∀ v : Surface,
          mapHas (mapSet s.pageCache (s.currentPage + 1) v)
            (s.currentPage - 1) = mapHas s.pageCache (s.currentPage - 1) :=
        fun v => mapHas_mapSet_ne _ _ _ _ (by omega)
      unfold prerenderAdjacentPages prerenderNextPhase prerenderPrevPhase
      by_cases h1a : s.currentPage < s.totalPages <;>
        cases h1b : mapHas s.pageCache (s.currentPage + 1) <;>
        by_cases h2a : 1 < s.currentPage <;>
        cases h2b : mapHas s.pageCache (s.currentPage - 1) <;>
        simp [h, hL, h1a, h1b, h2a, h2b, hprev]
    · intro p
      by_cases hp1 : p = s.currentPage + 1
      · subst hp1
        by_cases h1a : s.currentPage < s.totalPages <;>
          cases h1b : mapHas s.pageCache (s.currentPage + 1) <;>
          by_cases h2a : 1 < s.currentPage <;>
          cases h2b : mapHas s.pageCache (s.currentPage - 1) <;>
          simp [h1a, h1b, h2a, h2b] <;> omega
      · by_cases hp2 : p = s.currentPage - 1
        · subst hp2
          by_cases h1a : s.currentPage < s.totalPages <;>
            cases h1b : mapHas s.pageCache (s.currentPage + 1) <;>
            by_cases h2a : 1 < s.currentPage <;>
            cases h2b : mapHas s.pageCache (s.currentPage - 1) <;>
            simp [h1a, h1b, h2a, h2b] <;> omega
        · by_cases h1a : s.currentPage < s.totalPages <;>
            cases h1b : mapHas s.pageCache (s.currentPage + 1) <;>
            by_cases h2a : 1 < s.currentPage <;>
            cases h2b : mapHas s.pageCache (s.currentPage - 1) <;>
            simp [h1a, h1b, h2a, h2b, hp1, hp2]
    · intro p hp
      rw [List.mem_append] at hp
      rcases hp with hp | hp
      · by_cases hc : s.currentPage < s.totalPages ∧
            mapHas s.pageCache (s.currentPage + 1) = false
        case neg => simp [hc] at hp
        obtain ⟨hc1, hc2⟩ := hc
        have hp' : p = s.currentPage + 1 := by
          simpa [hc1, hc2] using hp
        subst hp'
        rw [hcache]
        rw [mapHas_cleanup_of_keep _ _ _ (by simp [pagesToKeep])]
        have hself : mapHas (prerenderNextPhase o
            { s with isPrerendering := true }).pageCache
            (s.currentPage + 1) = true :=
          nextPhase_has o { s with isPrerendering := true } hc1 hc2
        have hkeep := prevPhase_has_preserve o
          (prerenderNextPhase o { s with isPrerendering := true })
          (s.currentPage + 1)
          (by rw [hA.1]; dsimp only; omega)
        rw [hkeep, hself]
      · by_cases hc : 1 < s.currentPage ∧
            mapHas s.pageCache (s.currentPage - 1) = false
        case neg => simp [hc] at hp
        obtain ⟨hc1, hc2⟩ := hc
        have hp' : p = s.currentPage - 1 := by
          simpa [hc1, hc2] using hp
        subst hp'
        rw [hcache]
        rw [mapHas_cleanup_of_keep _ _ _ (by simp [pagesToKeep])]
        have hup : mapHas (prerenderNextPhase o
            { s with isPrerendering := true }).pageCache
            (s.currentPage - 1) = false := by
          rw [nextPhase_has_preserve o { s with isPrerendering := true }
            (s.currentPage - 1) (by dsimp only; omega)]
          exact hc2
        have hself := prevPhase_has_self o
          (prerenderNextPhase o { s with isPrerendering := true })
          (by rw [hA.1]; dsimp only; omega)
          (by rw [hA.1]; dsimp only; exact hup)
        rw [hA.1] at hself
        dsimp only at hself
        exact hself
    · intro k hk
      rw [hcache] at hk
      exact cleanup_keys_mem _ _ k hk
    · rw [hcache]
      exact cleanup_length_le _ _ hndB

/-- C8 witness: at the concrete page-3 state of a 10-page document with
pages 1, 2, 3 cached, both parts of the specification hold. -/
theorem prerender_adjacent_spec_witness :
    (sPageThree.isPrerendering = true →
      prerenderAdjacentPages oPlain sPageThree = sPageThree) ∧
    (sPageThree.isPrerendering = false →
      ∃ reqs : List ℤ,
        (prerenderAdjacentPages oPlain sPageThree).rasterLog =
          sPageThree.rasterLog ++ reqs ∧
        (∀ p : ℤ, p ∈ reqs ↔
          ((p = sPageThree.currentPage + 1 ∨ p = sPageThree.currentPage - 1) ∧
            1 ≤ p ∧ p ≤ sPageThree.totalPages ∧
            mapHas sPageThree.pageCache p = false)) ∧
        (∀ p ∈ reqs,
          mapHas (prerenderAdjacentPages oPlain sPageThree).pageCache p = true) ∧
        (∀ k ∈ mapKeys (prerenderAdjacentPages oPlain sPageThree).pageCache,
          k = sPageThree.currentPage - 1 ∨ k = sPageThree.currentPage ∨
            k = sPageThree.currentPage + 1) ∧
        (prerenderAdjacentPages oPlain sPageThree).pageCache.length ≤ 3) :=
  prerender_adjacent_spec oPlain sPageThree rfl (by decide) (by decide)
    (by decide)

/-- C9: from the state of a freshly loaded document with at least one
page, after any sequence of navigation and re-render events — under any
environment, failures included — the current page stays inside
[1, totalPages], every page index ever passed to a rasterization
request lies inside [1, totalPages], and any further navigation event
moves `currentPage` by exactly +1, −1 or not at all, staying inside
bounds. -/
theorem raster_requests_in_bounds (o : Oracle) (n : ℤ) (hn : 1 ≤ n)
    (evs : List Ev) :
    PageInv (run o (initState n) evs) ∧
    ∀ e : Ev, PageInv (step o (run o (initState n) evs) e) ∧
      ((step o (run o (initState n) evs) e).currentPage =
          (run o (initState n) evs).currentPage + 1 ∨
        (step o (run o (initState n) evs) e).currentPage =
          (run o (initState n) evs).currentPage - 1 ∨
        (step o (run o (initState n) evs) e).currentPage =
          (run o (initState n) evs).currentPage) := by
  have hrun : PageInv (run o (initState n) evs) :=
    run_inv o evs (initState n) (initState_inv n hn)
  refine ⟨hrun, fun e => ⟨step_inv o _ e hrun, ?_⟩⟩
  cases e
  · rcases goToNextPage_cur o (run o (initState n) evs) with hc | hc
    · exact Or.inl hc
    · exact Or.inr (Or.inr hc)
  · rcases goToPreviousPage_cur o (run o (initState n) evs) with hc | hc
    · exact Or.inr (Or.inl hc)
    · exact Or.inr (Or.inr hc)
  · refine Or.inr (Or.inr ?_)
    exact (renderPageApp_fields o (run o (initState n) evs)).1

/-- C9 witness: a 3-page document driven through next, next, prev, a
re-render, and two more next events satisfies the invariant and the
±1 stepping property. -/
theorem raster_requests_in_bounds_witness :
    PageInv (run oPlain (initState 3)
      [Ev.next, Ev.next, Ev.prev, Ev.rerender, Ev.next, Ev.next]) ∧
    ∀ e : Ev, PageInv (step oPlain (run oPlain (initState 3)
        [Ev.next, Ev.next, Ev.prev, Ev.rerender, Ev.next, Ev.next]) e) ∧
      ((step oPlain (run oPlain (initState 3)
            [Ev.next, Ev.next, Ev.prev, Ev.rerender, Ev.next, Ev.next]) e).currentPage =
          (run oPlain (initState 3)
            [Ev.next, Ev.next, Ev.prev, Ev.rerender, Ev.next, Ev.next]).currentPage + 1 ∨
        (step oPlain (run oPlain (initState 3)
            [Ev.next, Ev.next, Ev.prev, Ev.rerender, Ev.next, Ev.next]) e).currentPage =
          (run oPlain (initState 3)
            [Ev.next, Ev.next, Ev.prev, Ev.rerender, Ev.next, Ev.next]).currentPage - 1 ∨
        (step oPlain (run oPlain (initState 3)
            [Ev.next, Ev.next, Ev.prev, Ev.rerender, Ev.next, Ev.next]) e).currentPage =
          (run oPlain (initState 3)
            [Ev.next, Ev.next, Ev.prev, Ev.rerender, Ev.next, Ev.next]).currentPage) :=
  raster_requests_in_bounds oPlain 3 (by norm_num)
    [Ev.next, Ev.next, Ev.prev, Ev.rerender, Ev.next, Ev.next]

end PdfTransitions
